import Mathlib

/-!
# Verification of `SuperMario/agent/network.py`

A shallow embedding of the two Q-network architectures
(`DeepConvQNetwork` and `DuelingDeepConvQNetwork`) defined in
`src/SuperMario/agent/network.py`, together with proofs of the
specification's claims about them.

Modelling conventions:
* Tensor entries are rationals (idealised exact arithmetic in place of
  IEEE floats).
* A rank-4 tensor `(b, c, h, w)` carries its shape as data and its
  entries as a total function; entries outside the valid index range are
  irrelevant junk that no operation reads.
* Operations that can raise a shape error in PyTorch (`Conv2d` on an
  undersized or channel-mismatched input, `Linear` on a width-mismatched
  input, `torch.zeros` on a negative size, `nn.Conv2d` / `nn.Linear`
  construction with a negative size) return `Option`/`none` there.
  Zero-sized dimensions are permitted, matching PyTorch's support for
  empty tensors; for a zero-channel input, convolution zeroes the output
  channel dimension (ATen `calc_output_size`, "Handle empty # of
  channels"), so the next stage's channel check raises.
* Python `int` construction arguments are `ℤ`; tensor shapes are `ℕ`.
-/

namespace SuperMario

/-- A single sample (one stacked-frame image): channel → row → column → value.
Entries outside the declared shape are junk that no operation reads. -/
abbrev Sample3 : Type := ℕ → ℕ → ℕ → ℚ

/-- A flat feature vector: index → value. -/
abbrev Vec : Type := ℕ → ℚ

/-- A rank-4 tensor of shape `(b, c, h, w)`, as produced by a batched
image pipeline. `data bi` is the sample at batch index `bi`. -/
structure Tensor4 where
  b : ℕ
  c : ℕ
  h : ℕ
  w : ℕ
  data : ℕ → Sample3

/-- A rank-2 tensor of shape `(b, n)`: a batch of flat feature vectors. -/
structure Tensor2 where
  b : ℕ
  n : ℕ
  data : ℕ → Vec

/-- The all-zero rank-4 tensor of a given shape (`torch.zeros`). -/
def zeros4 (b c h w : ℕ) : Tensor4 :=
  ⟨b, c, h, w, fun _ _ _ _ => 0⟩

/-- A 2-D convolution layer with a square kernel (`nn.Conv2d(inC, outC,
kernel_size=k, stride=s)`), including its learnable bias. -/
structure Conv2d where
  inC : ℕ
  outC : ℕ
  k : ℕ
  s : ℕ
  weight : ℕ → ℕ → ℕ → ℕ → ℚ
  bias : ℕ → ℚ

/-- The valid (unpadded) convolution output-size formula
`floor((i - k) / s) + 1`, meaningful when `k ≤ i`. -/
def convOutSize (i k s : ℕ) : ℕ :=
  (i - k) / s + 1

/-- Cross-correlation of one sample with a `Conv2d` layer, PyTorch's
convolution semantics: `out o i j = bias o + Σ_{ci,di,dj} weight o ci di dj *
x ci (i*s+di) (j*s+dj)`. -/
def conv2dSample (L : Conv2d) (x : Sample3) : Sample3 :=
  fun o i j =>
    L.bias o + ∑ ci ∈ Finset.range L.inC, ∑ di ∈ Finset.range L.k,
      ∑ dj ∈ Finset.range L.k,
        L.weight o ci di dj * x ci (i * L.s + di) (j * L.s + dj)

/-- Batched application of a `Conv2d` layer. PyTorch raises a shape error
when the channel count mismatches or the spatial size is smaller than the
kernel (output size would be non-positive); those cases are `none`. For a
zero-channel input the convolution succeeds but zeroes the output channel
dimension (ATen `calc_output_size`, "Handle empty # of channels"). -/
def conv2dApply (L : Conv2d) (x : Tensor4) : Option Tensor4 :=
  if x.c = L.inC ∧ L.k ≤ x.h ∧ L.k ≤ x.w then
    some ⟨x.b, if x.c = 0 then 0 else L.outC,
      convOutSize x.h L.k L.s, convOutSize x.w L.k L.s,
      fun bi => conv2dSample L (x.data bi)⟩
  else none

/-- Rectified linear unit on one sample (`nn.ReLU`). -/
def reluSample (x : Sample3) : Sample3 :=
  fun c i j => max (x c i j) 0

/-- Rectified linear unit on a rank-4 tensor. -/
def relu4 (x : Tensor4) : Tensor4 :=
  ⟨x.b, x.c, x.h, x.w, fun bi => reluSample (x.data bi)⟩

/-- Rectified linear unit on a flat vector. -/
def reluVec (v : Vec) : Vec :=
  fun i => max (v i) 0

/-- Rectified linear unit on a rank-2 tensor. -/
def relu2 (x : Tensor2) : Tensor2 :=
  ⟨x.b, x.n, fun bi => reluVec (x.data bi)⟩

/-- Row-major flattening of one sample of shape `(c, h, w)` into a vector
of length `c*h*w` (`view(b, -1)` / `nn.Flatten` semantics). -/
def flattenSample (_c h w : ℕ) (x : Sample3) : Vec :=
  fun f => x (f / (h * w)) (f % (h * w) / w) (f % w)

/-- Flatten a rank-4 tensor to a rank-2 tensor `(b, c*h*w)`
(`features.view(features.size(0), -1)` / `nn.Flatten()`). -/
def flatten4 (x : Tensor4) : Tensor2 :=
  ⟨x.b, x.c * x.h * x.w, fun bi => flattenSample x.c x.h x.w (x.data bi)⟩

/-- A fully-connected layer `nn.Linear(inF, outF)` with learnable bias. -/
structure Linear where
  inF : ℕ
  outF : ℕ
  weight : ℕ → ℕ → ℚ
  bias : ℕ → ℚ

/-- One sample through a `Linear` layer:
`out o = bias o + Σ_i weight o i * v i`. -/
def linearSample (L : Linear) (v : Vec) : Vec :=
  fun o => L.bias o + ∑ i ∈ Finset.range L.inF, L.weight o i * v i

/-- Batched application of a `Linear` layer; a feature-width mismatch is a
shape error (`none`), as the underlying matrix multiply raises. -/
def linearApply (L : Linear) (x : Tensor2) : Option Tensor2 :=
  if x.n = L.inF then
    some ⟨x.b, L.outF, fun bi => linearSample L (x.data bi)⟩
  else none

/-- The parameters (weights and biases) of the three-stage convolutional
trunk shared by both architectures. -/
structure TrunkParams where
  w1 : ℕ → ℕ → ℕ → ℕ → ℚ
  b1 : ℕ → ℚ
  w2 : ℕ → ℕ → ℕ → ℕ → ℚ
  b2 : ℕ → ℚ
  w3 : ℕ → ℕ → ℕ → ℕ → ℚ
  b3 : ℕ → ℚ

/-- The parameters of a two-layer fully-connected head. -/
structure HeadParams where
  w1 : ℕ → ℕ → ℚ
  b1 : ℕ → ℚ
  w2 : ℕ → ℕ → ℚ
  b2 : ℕ → ℚ

/-- The convolutional trunk `self.conv`: three `Conv2d` stages. -/
structure Trunk where
  conv1 : Conv2d
  conv2 : Conv2d
  conv3 : Conv2d

/-- Build the trunk exactly as both `__init__` bodies do:
`Conv2d(input_dim[0], 32, kernel_size=8, stride=4)`,
`Conv2d(32, 64, kernel_size=4, stride=2)`,
`Conv2d(64, 64, kernel_size=3, stride=1)`. -/
def mkTrunk (c : ℕ) (p : TrunkParams) : Trunk :=
  ⟨⟨c, 32, 8, 4, p.w1, p.b1⟩, ⟨32, 64, 4, 2, p.w2, p.b2⟩,
    ⟨64, 64, 3, 1, p.w3, p.b3⟩⟩

/-- Apply the trunk `nn.Sequential(Conv2d, ReLU, Conv2d, ReLU, Conv2d,
ReLU)`: each convolution stage is followed by a rectified-linear
activation, and any stage's shape error propagates. -/
def Trunk.apply (T : Trunk) (x : Tensor4) : Option Tensor4 :=
  match conv2dApply T.conv1 x with
  | none => none
  | some y1 =>
    match conv2dApply T.conv2 (relu4 y1) with
    | none => none
    | some y2 =>
      match conv2dApply T.conv3 (relu4 y2) with
      | none => none
      | some y3 => some (relu4 y3)

/-- One sample through the full trunk (convolution and activation of each
of the three stages). -/
def Trunk.sampleOut (T : Trunk) (x : Sample3) : Sample3 :=
  reluSample (conv2dSample T.conv3
    (reluSample (conv2dSample T.conv2
      (reluSample (conv2dSample T.conv1 x)))))

/-- Spatial output size of the whole trunk on an input extent `i`:
the three stage formulas composed. -/
def trunkOutH (i : ℕ) : ℕ :=
  convOutSize (convOutSize (convOutSize i 8 4) 4 2) 3 1

/-- `feature_size`: run the trunk on `torch.zeros(1, *input_dim)` and read
off the flattened width `view(1, -1).size(1)`.

`torch.zeros` raises on a negative size, hence the sign guard. When
`input_dim` does not have exactly three components the dummy tensor's rank
is not 4 and `Conv2d` rejects it (a rank-3 tensor would be read as an
unbatched `(C, H, W)` input with `C = 1`, which either mismatches the
configured channel count or, when `input_dim[0] = 1`, has spatial height
`1 < 8`; every other rank is rejected outright), so those cases are
`none`. -/
def feature_size (T : Trunk) (input_dim : List ℤ) : Option ℕ :=
  match input_dim with
  | [c, h, w] =>
    if 0 ≤ c ∧ 0 ≤ h ∧ 0 ≤ w then
      match T.apply (zeros4 1 c.toNat h.toNat w.toNat) with
      | none => none
      | some y => some (flatten4 y).n
    else none
  | _ => none

/-- The standard deep convolutional Q-network: trunk, flattened feature
width, and the two fully-connected layers of `self.network`. -/
structure DeepConvQNetwork where
  input_dim : List ℤ
  output_dim : ℤ
  conv : Trunk
  fc_input_dim : ℕ
  lin1 : Linear
  lin2 : Linear

/-- The parameter set a standard-network construction draws its layer
weights from (the random initialisation is irrelevant to the claims, so it
is passed in explicitly). -/
structure StdParams where
  trunk : TrunkParams
  head : HeadParams

/-- `DeepConvQNetwork.__init__(input_dim, output_dim)`. Mirrors the
source order: read `input_dim[0]` (raises on an empty tuple), build the
`Conv2d` layers (`nn.Conv2d` raises on a negative channel count), compute
`self.fc_input_dim = self.feature_size()` (raises on a bad shape), then
build `nn.Linear(fc_input_dim, 512)` and `nn.Linear(512, output_dim)`
(`nn.Linear` raises on a negative width). Any raise means no instance is
returned (`none`). -/
def DeepConvQNetwork.build (input_dim : List ℤ) (output_dim : ℤ)
    (p : StdParams) : Option DeepConvQNetwork :=
  match input_dim.head? with
  | none => none
  | some c0 =>
    if c0 < 0 then none
    else
      match feature_size (mkTrunk c0.toNat p.trunk) input_dim with
      | none => none
      | some fc =>
        if output_dim < 0 then none
        else some
          { input_dim := input_dim
            output_dim := output_dim
            conv := mkTrunk c0.toNat p.trunk
            fc_input_dim := fc
            lin1 := ⟨fc, 512, p.head.w1, p.head.b1⟩
            lin2 := ⟨512, output_dim.toNat, p.head.w2, p.head.b2⟩ }

/-- `DeepConvQNetwork.forward(state)`: `self.network(state)`, i.e. trunk,
flatten, `Linear(fc, 512)`, ReLU, `Linear(512, output_dim)`. The move of
`state` onto `self.device` does not change values and is the identity
here. -/
def DeepConvQNetwork.forward (net : DeepConvQNetwork) (state : Tensor4) :
    Option Tensor2 :=
  match net.conv.apply state with
  | none => none
  | some f =>
    match linearApply net.lin1 (flatten4 f) with
    | none => none
    | some u => linearApply net.lin2 (relu2 u)

/-- The dueling deep convolutional Q-network: the same trunk, and the two
parallel fully-connected streams `self.value_stream` (`Linear(fc, 128)`,
ReLU, `Linear(128, 1)`) and `self.advantage_stream` (`Linear(fc, 128)`,
ReLU, `Linear(128, output_dim)`). -/
structure DuelingDeepConvQNetwork where
  input_dim : List ℤ
  output_dim : ℤ
  conv : Trunk
  fc_input_dim : ℕ
  valueL1 : Linear
  valueL2 : Linear
  advL1 : Linear
  advL2 : Linear

/-- The parameter set a dueling-network construction draws its layer
weights from. -/
structure DuelParams where
  trunk : TrunkParams
  value : HeadParams
  advantage : HeadParams

/-- `DuelingDeepConvQNetwork.__init__(input_dim, output_dim)`: same trunk
and `feature_size` computation as the standard network, then the value
stream (`Linear(fc, 128)`, ReLU, `Linear(128, 1)`) and the advantage
stream (`Linear(fc, 128)`, ReLU, `Linear(128, output_dim)`). -/
def DuelingDeepConvQNetwork.build (input_dim : List ℤ) (output_dim : ℤ)
    (p : DuelParams) : Option DuelingDeepConvQNetwork :=
  match input_dim.head? with
  | none => none
  | some c0 =>
    if c0 < 0 then none
    else
      match feature_size (mkTrunk c0.toNat p.trunk) input_dim with
      | none => none
      | some fc =>
        if output_dim < 0 then none
        else some
          { input_dim := input_dim
            output_dim := output_dim
            conv := mkTrunk c0.toNat p.trunk
            fc_input_dim := fc
            valueL1 := ⟨fc, 128, p.value.w1, p.value.b1⟩
            valueL2 := ⟨128, 1, p.value.w2, p.value.b2⟩
            advL1 := ⟨fc, 128, p.advantage.w1, p.advantage.b1⟩
            advL2 := ⟨128, output_dim.toNat, p.advantage.w2, p.advantage.b2⟩ }

/-- `tensor.mean()` with no axis argument: the single scalar mean over
every entry of the rank-2 tensor (all `b * n` of them). -/
def tmean (t : Tensor2) : ℚ :=
  (∑ bi ∈ Finset.range t.b, ∑ j ∈ Finset.range t.n, t.data bi j) /
    ((t.b : ℚ) * (t.n : ℚ))

/-- The value-stream output of the dueling network on a state: trunk,
flatten, `Linear(fc, 128)`, ReLU, `Linear(128, 1)`. -/
def DuelingDeepConvQNetwork.valueOut (net : DuelingDeepConvQNetwork)
    (state : Tensor4) : Option Tensor2 :=
  match net.conv.apply state with
  | none => none
  | some f =>
    match linearApply net.valueL1 (flatten4 f) with
    | none => none
    | some u => linearApply net.valueL2 (relu2 u)

/-- The advantage-stream output of the dueling network on a state: trunk,
flatten, `Linear(fc, 128)`, ReLU, `Linear(128, output_dim)`. -/
def DuelingDeepConvQNetwork.advantageOut (net : DuelingDeepConvQNetwork)
    (state : Tensor4) : Option Tensor2 :=
  match net.conv.apply state with
  | none => none
  | some f =>
    match linearApply net.advL1 (flatten4 f) with
    | none => none
    | some u => linearApply net.advL2 (relu2 u)

/-- `DuelingDeepConvQNetwork.forward(state)`: trunk, flatten, both
streams, then `qvals = values + (advantages - advantages.mean())`, with
the `(b, 1)` value column broadcast across actions and the mean the single
scalar over the whole advantage tensor. -/
def DuelingDeepConvQNetwork.forward (net : DuelingDeepConvQNetwork)
    (state : Tensor4) : Option Tensor2 :=
  match net.conv.apply state with
  | none => none
  | some f =>
    match linearApply net.valueL1 (flatten4 f) with
    | none => none
    | some u1 =>
      match linearApply net.valueL2 (relu2 u1) with
      | none => none
      | some values =>
        match linearApply net.advL1 (flatten4 f) with
        | none => none
        | some a1 =>
          match linearApply net.advL2 (relu2 a1) with
          | none => none
          | some advantages =>
            some ⟨advantages.b, advantages.n,
              fun bi a =>
                values.data bi 0 + (advantages.data bi a - tmean advantages)⟩

/-- All-zero trunk parameters, a concrete initialisation for witnesses. -/
def zeroTrunkParams : TrunkParams :=
  ⟨fun _ _ _ _ => 0, fun _ => 0, fun _ _ _ _ => 0, fun _ => 0,
    fun _ _ _ _ => 0, fun _ => 0⟩

/-- All-zero head parameters, a concrete initialisation for witnesses. -/
def zeroHeadParams : HeadParams :=
  ⟨fun _ _ => 0, fun _ => 0, fun _ _ => 0, fun _ => 0⟩

/-- All-zero standard-network parameters. -/
def p0 : StdParams :=
  ⟨zeroTrunkParams, zeroHeadParams⟩

/-- All-zero dueling-network parameters. -/
def pd0 : DuelParams :=
  ⟨zeroTrunkParams, zeroHeadParams, zeroHeadParams⟩

/-- The network record that a successful standard construction with
`input_dim = (c, h, w)` produces. -/
def netOfStd (c h w n : ℤ) (p : StdParams) : DeepConvQNetwork :=
  { input_dim := [c, h, w]
    output_dim := n
    conv := mkTrunk c.toNat p.trunk
    fc_input_dim := 64 * trunkOutH h.toNat * trunkOutH w.toNat
    lin1 := ⟨64 * trunkOutH h.toNat * trunkOutH w.toNat, 512,
      p.head.w1, p.head.b1⟩
    lin2 := ⟨512, n.toNat, p.head.w2, p.head.b2⟩ }

/-- The network record that a successful dueling construction with
`input_dim = (c, h, w)` produces. -/
def netOfDuel (c h w n : ℤ) (p : DuelParams) : DuelingDeepConvQNetwork :=
  { input_dim := [c, h, w]
    output_dim := n
    conv := mkTrunk c.toNat p.trunk
    fc_input_dim := 64 * trunkOutH h.toNat * trunkOutH w.toNat
    valueL1 := ⟨64 * trunkOutH h.toNat * trunkOutH w.toNat, 128,
      p.value.w1, p.value.b1⟩
    valueL2 := ⟨128, 1, p.value.w2, p.value.b2⟩
    advL1 := ⟨64 * trunkOutH h.toNat * trunkOutH w.toNat, 128,
      p.advantage.w1, p.advantage.b1⟩
    advL2 := ⟨128, n.toNat, p.advantage.w2, p.advantage.b2⟩ }

/-- The per-sample computation of the standard network's full pipeline:
trunk, flatten, `Linear(fc, 512)`, ReLU, `Linear(512, output_dim)`. -/
def stdHeadVec (net : DeepConvQNetwork) (hh ww : ℕ) (s : Sample3) : Vec :=
  linearSample net.lin2 (reluVec (linearSample net.lin1
    (flattenSample 64 (trunkOutH hh) (trunkOutH ww) (net.conv.sampleOut s))))

/-- The per-sample computation of the dueling network's value stream. -/
def duelValueVec (net : DuelingDeepConvQNetwork) (hh ww : ℕ)
    (s : Sample3) : Vec :=
  linearSample net.valueL2 (reluVec (linearSample net.valueL1
    (flattenSample 64 (trunkOutH hh) (trunkOutH ww) (net.conv.sampleOut s))))

/-- The per-sample computation of the dueling network's advantage stream. -/
def duelAdvVec (net : DuelingDeepConvQNetwork) (hh ww : ℕ)
    (s : Sample3) : Vec :=
  linearSample net.advL2 (reluVec (linearSample net.advL1
    (flattenSample 64 (trunkOutH hh) (trunkOutH ww) (net.conv.sampleOut s))))

/-- The full advantage-stream output tensor of the dueling network on a
batch. -/
def duelAdvTensor (net : DuelingDeepConvQNetwork) (x : Tensor4) : Tensor2 :=
  ⟨x.b, net.advL2.outF, fun bi => duelAdvVec net x.h x.w (x.data bi)⟩

/-- The spec's worked example: the advantage matrix `[[1,2,3],[4,5,6]]`
of shape `(2, 3)`. -/
def exampleA : Tensor2 :=
  ⟨2, 3, fun i j =>
    if i = 0 then (if j = 0 then 1 else if j = 1 then 2 else 3)
    else (if j = 0 then 4 else if j = 1 then 5 else 6)⟩

instance : Inhabited Tensor2 :=
  ⟨⟨0, 0, fun _ _ => 0⟩⟩

lemma conv2dApply_pos (L : Conv2d) (x : Tensor4)
    (h : x.c = L.inC ∧ L.k ≤ x.h ∧ L.k ≤ x.w) (h0 : x.c ≠ 0) :
    conv2dApply L x =
      some ⟨x.b, L.outC, convOutSize x.h L.k L.s, convOutSize x.w L.k L.s,
        fun bi => conv2dSample L (x.data bi)⟩ := by
  unfold conv2dApply
  rw [if_pos h, if_neg h0]

lemma conv2dApply_neg (L : Conv2d) (x : Tensor4)
    (h : ¬(x.c = L.inC ∧ L.k ≤ x.h ∧ L.k ≤ x.w)) :
    conv2dApply L x = none := by
  unfold conv2dApply
  exact if_neg h

lemma conv2dApply_shape (L : Conv2d) (x y : Tensor4)
    (h : conv2dApply L x = some y) :
    y.b = x.b ∧ y.c = (if x.c = 0 then 0 else L.outC) ∧
      y.h = convOutSize x.h L.k L.s ∧ y.w = convOutSize x.w L.k L.s := by
  unfold conv2dApply at h
  split at h
  · cases h
    exact ⟨rfl, rfl, rfl, rfl⟩
  · cases h

lemma conv2dApply_some_cond (L : Conv2d) (x y : Tensor4)
    (h : conv2dApply L x = some y) :
    x.c = L.inC ∧ L.k ≤ x.h ∧ L.k ≤ x.w := by
  unfold conv2dApply at h
  split at h
  · assumption
  · cases h

lemma mkTrunk_conv1 (c : ℕ) (p : TrunkParams) :
    (mkTrunk c p).conv1 = ⟨c, 32, 8, 4, p.w1, p.b1⟩ := rfl

lemma mkTrunk_conv2 (c : ℕ) (p : TrunkParams) :
    (mkTrunk c p).conv2 = ⟨32, 64, 4, 2, p.w2, p.b2⟩ := rfl

lemma mkTrunk_conv3 (c : ℕ) (p : TrunkParams) :
    (mkTrunk c p).conv3 = ⟨64, 64, 3, 1, p.w3, p.b3⟩ := rfl

lemma trunk_spatial_iff (i : ℕ) :
    (8 ≤ i ∧ 4 ≤ convOutSize i 8 4 ∧ 3 ≤ convOutSize (convOutSize i 8 4) 4 2)
      ↔ 36 ≤ i := by
  unfold convOutSize
  omega

lemma stage1_cond (i : ℕ) (hi : 36 ≤ i) : 8 ≤ i := by
  omega

lemma stage2_cond (i : ℕ) (hi : 36 ≤ i) : 4 ≤ convOutSize i 8 4 := by
  unfold convOutSize
  omega

lemma stage3_cond (i : ℕ) (hi : 36 ≤ i) :
    3 ≤ convOutSize (convOutSize i 8 4) 4 2 := by
  unfold convOutSize
  omega

lemma trunk_apply_eq (c : ℕ) (p : TrunkParams) (x : Tensor4)
    (hc : x.c = c) (hc0 : c ≠ 0) (hh : 36 ≤ x.h) (hw : 36 ≤ x.w) :
    (mkTrunk c p).apply x =
      some ⟨x.b, 64, trunkOutH x.h, trunkOutH x.w,
        fun bi => (mkTrunk c p).sampleOut (x.data bi)⟩ := by
  have hx0 : x.c ≠ 0 := by
    rw [hc]
    exact hc0
  have k1 : x.c = (mkTrunk c p).conv1.inC ∧ (mkTrunk c p).conv1.k ≤ x.h ∧
      (mkTrunk c p).conv1.k ≤ x.w :=
    ⟨hc, stage1_cond x.h hh, stage1_cond x.w hw⟩
  unfold Trunk.apply
  split
  · next h1 =>
    rw [conv2dApply_pos _ x k1 hx0] at h1
    cases h1
  · next y1 h1 =>
    rw [conv2dApply_pos _ x k1 hx0] at h1
    cases h1
    have k2 : (32 : ℕ) = 32 ∧ 4 ≤ convOutSize x.h 8 4 ∧
        4 ≤ convOutSize x.w 8 4 :=
      ⟨rfl, stage2_cond x.h hh, stage2_cond x.w hw⟩
    split
    · next h2 =>
      rw [conv2dApply_pos _ _ k2 ((by decide : (32 : ℕ) ≠ 0))] at h2
      cases h2
    · next y2 h2 =>
      rw [conv2dApply_pos _ _ k2 ((by decide : (32 : ℕ) ≠ 0))] at h2
      cases h2
      have k3 : (64 : ℕ) = 64 ∧ 3 ≤ convOutSize (convOutSize x.h 8 4) 4 2 ∧
          3 ≤ convOutSize (convOutSize x.w 8 4) 4 2 :=
        ⟨rfl, stage3_cond x.h hh, stage3_cond x.w hw⟩
      split
      · next h3 =>
        rw [conv2dApply_pos _ _ k3 ((by decide : (64 : ℕ) ≠ 0))] at h3
        cases h3
      · next y3 h3 =>
        rw [conv2dApply_pos _ _ k3 ((by decide : (64 : ℕ) ≠ 0))] at h3
        cases h3
        rfl

lemma trunk_apply_isSome_iff (c : ℕ) (p : TrunkParams) (x : Tensor4) :
    ((mkTrunk c p).apply x).isSome ↔
      (x.c = c ∧ c ≠ 0 ∧ 36 ≤ x.h ∧ 36 ≤ x.w) := by
  constructor
  · intro hs
    obtain ⟨y, hy⟩ := Option.isSome_iff_exists.mp hs
    unfold Trunk.apply at hy
    split at hy
    · cases hy
    · next y1 h1 =>
      split at hy
      · cases hy
      · next y2 h2 =>
        split at hy
        · cases hy
        · next y3 h3 =>
          have c1 := conv2dApply_some_cond _ _ _ h1
          have s1 := conv2dApply_shape _ _ _ h1
          have c2 := conv2dApply_some_cond _ _ _ h2
          have s2 := conv2dApply_shape _ _ _ h2
          have c3 := conv2dApply_some_cond _ _ _ h3
          simp only [mkTrunk_conv1, mkTrunk_conv2, mkTrunk_conv3, relu4]
            at c1 s1 c2 s2 c3
          obtain ⟨e1b, e1c, e1h, e1w⟩ := s1
          obtain ⟨e2b, e2c, e2h, e2w⟩ := s2
          have hx0 : x.c ≠ 0 := by
            intro h0
            rw [if_pos h0] at e1c
            rw [e1c] at c2
            exact absurd c2.1 (by decide)
          have hx3 : 3 ≤ convOutSize (convOutSize x.h 8 4) 4 2 := by
            rw [← e1h, ← e2h]
            exact c3.2.1
          have wx3 : 3 ≤ convOutSize (convOutSize x.w 8 4) 4 2 := by
            rw [← e1w, ← e2w]
            exact c3.2.2
          refine ⟨c1.1, c1.1 ▸ hx0, ?_, ?_⟩
          · exact (trunk_spatial_iff x.h).mp ⟨c1.2.1, e1h ▸ c2.2.1, hx3⟩
          · exact (trunk_spatial_iff x.w).mp ⟨c1.2.2, e1w ▸ c2.2.2, wx3⟩
  · rintro ⟨hc, hc0, hh, hw⟩
    rw [trunk_apply_eq c p x hc hc0 hh hw]
    rfl

lemma feature_size_eq (p : TrunkParams) (c h w : ℤ)
    (hc : 1 ≤ c) (hh : 36 ≤ h) (hw : 36 ≤ w) :
    feature_size (mkTrunk c.toNat p) [c, h, w] =
      some (64 * trunkOutH h.toNat * trunkOutH w.toNat) := by
  simp only [feature_size]
  rw [if_pos ⟨by omega, by omega, by omega⟩]
  rw [trunk_apply_eq c.toNat p (zeros4 1 c.toNat h.toNat w.toNat) rfl
    (by omega : c.toNat ≠ 0)
    (by show 36 ≤ h.toNat; omega) (by show 36 ≤ w.toNat; omega)]
  rfl

lemma feature_size_isSome_iff (p : TrunkParams) (c h w : ℤ) :
    (feature_size (mkTrunk c.toNat p) [c, h, w]).isSome ↔
      (1 ≤ c ∧ 36 ≤ h ∧ 36 ≤ w) := by
  constructor
  · intro hs
    simp only [feature_size] at hs
    by_cases hg : 0 ≤ c ∧ 0 ≤ h ∧ 0 ≤ w
    · rw [if_pos hg] at hs
      by_cases ht : ((mkTrunk c.toNat p).apply
          (zeros4 1 c.toNat h.toNat w.toNat)).isSome
      · have hcond := (trunk_apply_isSome_iff c.toNat p _).mp ht
        dsimp [zeros4] at hcond
        exact ⟨by omega, by omega, by omega⟩
      · rw [Option.not_isSome_iff_eq_none] at ht
        rw [ht] at hs
        simp at hs
    · rw [if_neg hg] at hs
      simp at hs
  · rintro ⟨hc, hh, hw⟩
    rw [feature_size_eq p c h w hc hh hw]
    rfl

lemma feature_size_isSome_iff_gen (p : TrunkParams) (c' : ℕ) (c1 h w : ℤ) :
    (feature_size (mkTrunk c' p) [c1, h, w]).isSome ↔
      (1 ≤ c1 ∧ c1.toNat = c' ∧ 36 ≤ h ∧ 36 ≤ w) := by
  constructor
  · intro hs
    simp only [feature_size] at hs
    by_cases hg : 0 ≤ c1 ∧ 0 ≤ h ∧ 0 ≤ w
    · rw [if_pos hg] at hs
      by_cases ht : ((mkTrunk c' p).apply
          (zeros4 1 c1.toNat h.toNat w.toNat)).isSome
      · have hcond := (trunk_apply_isSome_iff c' p _).mp ht
        dsimp [zeros4] at hcond
        exact ⟨by omega, hcond.1, by omega, by omega⟩
      · rw [Option.not_isSome_iff_eq_none] at ht
        rw [ht] at hs
        simp at hs
    · rw [if_neg hg] at hs
      simp at hs
  · rintro ⟨hc, rfl, hh, hw⟩
    rw [feature_size_eq p c1 h w hc hh hw]
    rfl

lemma feature_size_of_length_ne_three (T : Trunk) (d : List ℤ)
    (hd : d.length ≠ 3) : feature_size T d = none := by
  match d with
  | [] => rfl
  | [_] => rfl
  | [_, _] => rfl
  | [_, _, _] => exact absurd rfl hd
  | _ :: _ :: _ :: _ :: _ => rfl

lemma linearApply_pos (L : Linear) (x : Tensor2) (h : x.n = L.inF) :
    linearApply L x = some ⟨x.b, L.outF, fun bi => linearSample L (x.data bi)⟩ := by
  unfold linearApply
  exact if_pos h

lemma netOfStd_conv (c h w n : ℤ) (p : StdParams) :
    (netOfStd c h w n p).conv = mkTrunk c.toNat p.trunk := rfl

lemma netOfDuel_conv (c h w n : ℤ) (p : DuelParams) :
    (netOfDuel c h w n p).conv = mkTrunk c.toNat p.trunk := rfl

lemma build_std_some_iff (d : List ℤ) (n : ℤ) (p : StdParams)
    (net : DeepConvQNetwork) :
    DeepConvQNetwork.build d n p = some net ↔
      ∃ c h w, d = [c, h, w] ∧ 1 ≤ c ∧ 36 ≤ h ∧ 36 ≤ w ∧ 0 ≤ n ∧
        net = netOfStd c h w n p := by
  constructor
  · intro hb
    match d with
    | [] => exact absurd hb (by simp [DeepConvQNetwork.build])
    | c0 :: rest =>
      simp only [DeepConvQNetwork.build, List.head?] at hb
      split at hb
      · cases hb
      · next hn0 =>
        split at hb
        · cases hb
        · next fc hfs =>
          match rest with
          | [] => rw [feature_size_of_length_ne_three _ _ (by simp)] at hfs; cases hfs
          | [_] => rw [feature_size_of_length_ne_three _ _ (by simp)] at hfs; cases hfs
          | _ :: _ :: _ :: _ =>
            rw [feature_size_of_length_ne_three _ _ (by simp)] at hfs
            cases hfs
          | [h, w] =>
            have hss : (feature_size (mkTrunk c0.toNat p.trunk)
                [c0, h, w]).isSome := by rw [hfs]; rfl
            obtain ⟨hc, hh, hw⟩ := (feature_size_isSome_iff p.trunk c0 h w).mp hss
            rw [feature_size_eq p.trunk c0 h w hc hh hw] at hfs
            have hfc : fc = 64 * trunkOutH h.toNat * trunkOutH w.toNat :=
              (Option.some.inj hfs).symm
            split at hb
            · cases hb
            · next hnn =>
              cases hb
              refine ⟨c0, h, w, rfl, hc, hh, hw, by omega, ?_⟩
              rw [hfc]
              rfl
  · rintro ⟨c, h, w, rfl, hc, hh, hw, hn, rfl⟩
    simp only [DeepConvQNetwork.build, List.head?]
    rw [if_neg (by omega : ¬ c < 0)]
    rw [feature_size_eq p.trunk c h w hc hh hw]
    dsimp only
    rw [if_neg (by omega : ¬ n < 0)]
    rfl

lemma build_duel_some_iff (d : List ℤ) (n : ℤ) (p : DuelParams)
    (net : DuelingDeepConvQNetwork) :
    DuelingDeepConvQNetwork.build d n p = some net ↔
      ∃ c h w, d = [c, h, w] ∧ 1 ≤ c ∧ 36 ≤ h ∧ 36 ≤ w ∧ 0 ≤ n ∧
        net = netOfDuel c h w n p := by
  constructor
  · intro hb
    match d with
    | [] => exact absurd hb (by simp [DuelingDeepConvQNetwork.build])
    | c0 :: rest =>
      simp only [DuelingDeepConvQNetwork.build, List.head?] at hb
      split at hb
      · cases hb
      · next hn0 =>
        split at hb
        · cases hb
        · next fc hfs =>
          match rest with
          | [] => rw [feature_size_of_length_ne_three _ _ (by simp)] at hfs; cases hfs
          | [_] => rw [feature_size_of_length_ne_three _ _ (by simp)] at hfs; cases hfs
          | _ :: _ :: _ :: _ =>
            rw [feature_size_of_length_ne_three _ _ (by simp)] at hfs
            cases hfs
          | [h, w] =>
            have hss : (feature_size (mkTrunk c0.toNat p.trunk)
                [c0, h, w]).isSome := by rw [hfs]; rfl
            obtain ⟨hc, hh, hw⟩ := (feature_size_isSome_iff p.trunk c0 h w).mp hss
            rw [feature_size_eq p.trunk c0 h w hc hh hw] at hfs
            have hfc : fc = 64 * trunkOutH h.toNat * trunkOutH w.toNat :=
              (Option.some.inj hfs).symm
            split at hb
            · cases hb
            · next hnn =>
              cases hb
              refine ⟨c0, h, w, rfl, hc, hh, hw, by omega, ?_⟩
              rw [hfc]
              rfl
  · rintro ⟨c, h, w, rfl, hc, hh, hw, hn, rfl⟩
    simp only [DuelingDeepConvQNetwork.build, List.head?]
    rw [if_neg (by omega : ¬ c < 0)]
    rw [feature_size_eq p.trunk c h w hc hh hw]
    dsimp only
    rw [if_neg (by omega : ¬ n < 0)]
    rfl

lemma std_forward_eq (c h w n : ℤ) (p : StdParams) (x : Tensor4)
    (hc : 1 ≤ c) (hh : 36 ≤ h) (hw : 36 ≤ w)
    (hxc : x.c = c.toNat) (hxh : x.h = h.toNat) (hxw : x.w = w.toNat) :
    (netOfStd c h w n p).forward x =
      some ⟨x.b, n.toNat,
        fun bi => stdHeadVec (netOfStd c h w n p) x.h x.w (x.data bi)⟩ := by
  unfold DeepConvQNetwork.forward
  rw [netOfStd_conv, trunk_apply_eq c.toNat p.trunk x hxc (by omega) (by omega) (by omega)]
  dsimp only
  rw [linearApply_pos _ _ (by
    show 64 * trunkOutH x.h * trunkOutH x.w =
      64 * trunkOutH h.toNat * trunkOutH w.toNat
    rw [hxh, hxw])]
  dsimp only
  rw [linearApply_pos _ _ rfl]
  rfl

lemma duel_forward_eq (c h w n : ℤ) (p : DuelParams) (x : Tensor4)
    (hc : 1 ≤ c) (hh : 36 ≤ h) (hw : 36 ≤ w)
    (hxc : x.c = c.toNat) (hxh : x.h = h.toNat) (hxw : x.w = w.toNat) :
    (netOfDuel c h w n p).forward x =
      some ⟨x.b, n.toNat,
        fun bi a =>
          duelValueVec (netOfDuel c h w n p) x.h x.w (x.data bi) 0 +
            (duelAdvVec (netOfDuel c h w n p) x.h x.w (x.data bi) a -
              tmean (duelAdvTensor (netOfDuel c h w n p) x))⟩ := by
  unfold DuelingDeepConvQNetwork.forward
  rw [netOfDuel_conv, trunk_apply_eq c.toNat p.trunk x hxc (by omega) (by omega) (by omega)]
  dsimp only
  rw [linearApply_pos _ _ (by
    show 64 * trunkOutH x.h * trunkOutH x.w =
      64 * trunkOutH h.toNat * trunkOutH w.toNat
    rw [hxh, hxw])]
  dsimp only
  rw [linearApply_pos _ _ rfl]
  dsimp only
  rw [linearApply_pos _ _ (by
    show 64 * trunkOutH x.h * trunkOutH x.w =
      64 * trunkOutH h.toNat * trunkOutH w.toNat
    rw [hxh, hxw])]
  dsimp only
  rw [linearApply_pos _ _ rfl]
  rfl

lemma duel_valueOut_eq (c h w n : ℤ) (p : DuelParams) (x : Tensor4)
    (hc : 1 ≤ c) (hh : 36 ≤ h) (hw : 36 ≤ w)
    (hxc : x.c = c.toNat) (hxh : x.h = h.toNat) (hxw : x.w = w.toNat) :
    (netOfDuel c h w n p).valueOut x =
      some ⟨x.b, 1,
        fun bi => duelValueVec (netOfDuel c h w n p) x.h x.w (x.data bi)⟩ := by
  unfold DuelingDeepConvQNetwork.valueOut
  rw [netOfDuel_conv, trunk_apply_eq c.toNat p.trunk x hxc (by omega) (by omega) (by omega)]
  dsimp only
  rw [linearApply_pos _ _ (by
    show 64 * trunkOutH x.h * trunkOutH x.w =
      64 * trunkOutH h.toNat * trunkOutH w.toNat
    rw [hxh, hxw])]
  dsimp only
  rw [linearApply_pos _ _ rfl]
  rfl

lemma duel_advantageOut_eq (c h w n : ℤ) (p : DuelParams) (x : Tensor4)
    (hc : 1 ≤ c) (hh : 36 ≤ h) (hw : 36 ≤ w)
    (hxc : x.c = c.toNat) (hxh : x.h = h.toNat) (hxw : x.w = w.toNat) :
    (netOfDuel c h w n p).advantageOut x =
      some (duelAdvTensor (netOfDuel c h w n p) x) := by
  unfold DuelingDeepConvQNetwork.advantageOut
  rw [netOfDuel_conv, trunk_apply_eq c.toNat p.trunk x hxc (by omega) (by omega) (by omega)]
  dsimp only
  rw [linearApply_pos _ _ (by
    show 64 * trunkOutH x.h * trunkOutH x.w =
      64 * trunkOutH h.toNat * trunkOutH w.toNat
    rw [hxh, hxw])]
  dsimp only
  rw [linearApply_pos _ _ rfl]
  rfl

lemma tmean_const_rows (b b' n : ℕ) (hb : b ≠ 0) (hb' : b' ≠ 0) (r : Vec) :
    tmean ⟨b, n, fun _ => r⟩ = tmean ⟨b', n, fun _ => r⟩ := by
  unfold tmean
  dsimp only
  rw [Finset.sum_const, Finset.sum_const, Finset.card_range,
    Finset.card_range, nsmul_eq_mul, nsmul_eq_mul]
  rw [mul_div_mul_left _ _ (Nat.cast_ne_zero.mpr hb : (b : ℚ) ≠ 0)]
  rw [mul_div_mul_left _ _ (Nat.cast_ne_zero.mpr hb' : (b' : ℚ) ≠ 0)]

lemma list3_inj (a b c a' b' c' : ℤ) (h : [a, b, c] = [a', b', c']) :
    a = a' ∧ b = b' ∧ c = c' := by
  simpa using h

/-- C5: construction with spatial dimensions below the trunk's minimum
receptive field (such as `(4, 10, 10)`) fails during construction itself
(the shape error is raised by the dummy trunk pass inside `__init__`, so
no instance is ever returned): for either architecture the constructor
yields no network. -/
theorem C5_small_spatial_fails_at_construction
    (c h w n : ℤ) (p : StdParams) (pd : DuelParams)
    (hsmall : h < 36 ∨ w < 36) :
    DeepConvQNetwork.build [c, h, w] n p = none ∧
    DuelingDeepConvQNetwork.build [c, h, w] n pd = none := by
  constructor
  · cases hb : DeepConvQNetwork.build [c, h, w] n p with
    | none => rfl
    | some net =>
      obtain ⟨c', h', w', heq, _, hh, hw, _, _⟩ :=
        (build_std_some_iff _ _ _ _).mp hb
      obtain ⟨rfl, rfl, rfl⟩ := list3_inj _ _ _ _ _ _ heq
      exact absurd hh (by omega)
  · cases hb : DuelingDeepConvQNetwork.build [c, h, w] n pd with
    | none => rfl
    | some net =>
      obtain ⟨c', h', w', heq, _, hh, hw, _, _⟩ :=
        (build_duel_some_iff _ _ _ _).mp hb
      obtain ⟨rfl, rfl, rfl⟩ := list3_inj _ _ _ _ _ _ heq
      exact absurd hh (by omega)

/-- Witness for C5 at the spec's concrete example `(4, 10, 10)`. -/
theorem C5_witness :
    DeepConvQNetwork.build [4, 10, 10] 6 p0 = none ∧
    DuelingDeepConvQNetwork.build [4, 10, 10] 6 pd0 = none :=
  C5_small_spatial_fails_at_construction 4 10 10 6 p0 pd0
    (Or.inl (by decide))

/-- C6 (counterexample): the claim that construction fails for every
non-positive `output_dim` is false: `output_dim = 0` is accepted —
`nn.Linear(512, 0)` and `nn.Linear(128, 0)` build empty-output layers —
and both constructors return a usable instance whose forward pass
produces an empty `(b, 0)` row of Q-values. -/
theorem C6_counterexample :
    (∃ net, DeepConvQNetwork.build [4, 84, 84] 0 p0 = some net ∧
      ∃ y, net.forward (zeros4 1 4 84 84) = some y ∧ y.b = 1 ∧ y.n = 0) ∧
    (∃ net, DuelingDeepConvQNetwork.build [4, 84, 84] 0 pd0 = some net ∧
      ∃ y, net.forward (zeros4 1 4 84 84) = some y ∧ y.b = 1 ∧ y.n = 0) := by
  constructor
  · refine ⟨netOfStd 4 84 84 0 p0, (build_std_some_iff _ _ _ _).mpr
      ⟨4, 84, 84, rfl, by decide, by decide, by decide, by decide, rfl⟩, ?_⟩
    exact ⟨_, std_forward_eq 4 84 84 0 p0 (zeros4 1 4 84 84)
      (by decide) (by decide) (by decide) rfl rfl rfl, rfl, rfl⟩
  · refine ⟨netOfDuel 4 84 84 0 pd0, (build_duel_some_iff _ _ _ _).mpr
      ⟨4, 84, 84, rfl, by decide, by decide, by decide, by decide, rfl⟩, ?_⟩
    exact ⟨_, duel_forward_eq 4 84 84 0 pd0 (zeros4 1 4 84 84)
      (by decide) (by decide) (by decide) rfl rfl rfl, rfl, rfl⟩

/-- C6 (amended): construction fails whenever `input_dim` is not exactly
a 3-tuple, whenever it contains a non-positive component (channel count,
height, or width at most zero — a zero-channel input makes the first
convolution produce a zero-channel output, so the second stage's channel
check raises inside `feature_size`), and whenever `output_dim` is
negative; in those cases no network instance is returned. Only
`output_dim = 0` is accepted by the underlying layer constructors, per
the counterexample. -/
theorem C6_construction_validation :
    (∀ (d : List ℤ) (n : ℤ) (p : StdParams) (pd : DuelParams),
        d.length ≠ 3 →
        DeepConvQNetwork.build d n p = none ∧
        DuelingDeepConvQNetwork.build d n pd = none) ∧
    (∀ (c h w n : ℤ) (p : StdParams) (pd : DuelParams),
        c ≤ 0 ∨ h ≤ 0 ∨ w ≤ 0 →
        DeepConvQNetwork.build [c, h, w] n p = none ∧
        DuelingDeepConvQNetwork.build [c, h, w] n pd = none) ∧
    (∀ (d : List ℤ) (n : ℤ) (p : StdParams) (pd : DuelParams),
        n < 0 →
        DeepConvQNetwork.build d n p = none ∧
        DuelingDeepConvQNetwork.build d n pd = none) := by
  refine ⟨?_, ?_, ?_⟩
  · intro d n p pd hd
    constructor
    · cases hb : DeepConvQNetwork.build d n p with
      | none => rfl
      | some net =>
        obtain ⟨c', h', w', heq, -⟩ := (build_std_some_iff _ _ _ _).mp hb
        rw [heq] at hd
        exact absurd rfl hd
    · cases hb : DuelingDeepConvQNetwork.build d n pd with
      | none => rfl
      | some net =>
        obtain ⟨c', h', w', heq, -⟩ := (build_duel_some_iff _ _ _ _).mp hb
        rw [heq] at hd
        exact absurd rfl hd
  · intro c h w n p pd hbad
    constructor
    · cases hb : DeepConvQNetwork.build [c, h, w] n p with
      | none => rfl
      | some net =>
        obtain ⟨c', h', w', heq, hc, hh, hw, -⟩ :=
          (build_std_some_iff _ _ _ _).mp hb
        obtain ⟨rfl, rfl, rfl⟩ := list3_inj _ _ _ _ _ _ heq
        exact absurd hc (by omega)
    · cases hb : DuelingDeepConvQNetwork.build [c, h, w] n pd with
      | none => rfl
      | some net =>
        obtain ⟨c', h', w', heq, hc, hh, hw, -⟩ :=
          (build_duel_some_iff _ _ _ _).mp hb
        obtain ⟨rfl, rfl, rfl⟩ := list3_inj _ _ _ _ _ _ heq
        exact absurd hc (by omega)
  · intro d n p pd hn
    constructor
    · cases hb : DeepConvQNetwork.build d n p with
      | none => rfl
      | some net =>
        obtain ⟨c', h', w', heq, hc, hh, hw, hn0, -⟩ :=
          (build_std_some_iff _ _ _ _).mp hb
        exact absurd hn0 (by omega)
    · cases hb : DuelingDeepConvQNetwork.build d n pd with
      | none => rfl
      | some net =>
        obtain ⟨c', h', w', heq, hc, hh, hw, hn0, -⟩ :=
          (build_duel_some_iff _ _ _ _).mp hb
        exact absurd hn0 (by omega)

/-- Witness for the amended C6: a 2-tuple `input_dim`, a zero channel
count, a negative height, and a negative `output_dim` each make the
constructors fail. -/
theorem C6_witness :
    DeepConvQNetwork.build [4, 84] 6 p0 = none ∧
    DeepConvQNetwork.build [0, 84, 84] 6 p0 = none ∧
    DeepConvQNetwork.build [4, -1, 84] 6 p0 = none ∧
    DuelingDeepConvQNetwork.build [4, 84, 84] (-2) pd0 = none :=
  ⟨(C6_construction_validation.1 [4, 84] 6 p0 pd0 (by decide)).1,
    (C6_construction_validation.2.1 0 84 84 6 p0 pd0
      (Or.inl (by decide))).1,
    (C6_construction_validation.2.1 4 (-1) 84 6 p0 pd0
      (Or.inr (Or.inl (by decide)))).1,
    (C6_construction_validation.2.2 [4, 84, 84] (-2) p0 pd0 (by decide)).2⟩

/-- C8: forward passes are deterministic — with identical parameters
(equal network records) and identical input tensors, either network's
forward produces equal outputs. -/
theorem C8_forward_deterministic :
    (∀ (net net' : DeepConvQNetwork) (s s' : Tensor4),
        net = net' → s = s' → net.forward s = net'.forward s') ∧
    (∀ (net net' : DuelingDeepConvQNetwork) (s s' : Tensor4),
        net = net' → s = s' → net.forward s = net'.forward s') := by
  constructor
  · rintro net _ s _ rfl rfl
    rfl
  · rintro net _ s _ rfl rfl
    rfl

/-- Witness for C8 on concrete networks and inputs. -/
theorem C8_witness :
    (netOfStd 1 36 36 1 p0).forward (zeros4 1 1 36 36) =
      (netOfStd 1 36 36 1 p0).forward (zeros4 1 1 36 36) ∧
    (netOfDuel 1 36 36 1 pd0).forward (zeros4 1 1 36 36) =
      (netOfDuel 1 36 36 1 pd0).forward (zeros4 1 1 36 36) :=
  ⟨C8_forward_deterministic.1 _ _ _ _ rfl rfl,
    C8_forward_deterministic.2 _ _ _ _ rfl rfl⟩

/-- C2: for every valid construction with `input_dim = (c, h, w)` and
`output_dim = n`, either network's forward on a batch tensor of shape
`(b, c, h, w)` returns a tensor of shape `(b, n)`. -/
theorem C2_forward_output_shape :
    (∀ (c h w n : ℤ) (p : StdParams) (net : DeepConvQNetwork) (x : Tensor4),
        DeepConvQNetwork.build [c, h, w] n p = some net →
        x.c = c.toNat → x.h = h.toNat → x.w = w.toNat →
        ∃ y, net.forward x = some y ∧ y.b = x.b ∧ y.n = n.toNat) ∧
    (∀ (c h w n : ℤ) (p : DuelParams) (net : DuelingDeepConvQNetwork)
        (x : Tensor4),
        DuelingDeepConvQNetwork.build [c, h, w] n p = some net →
        x.c = c.toNat → x.h = h.toNat → x.w = w.toNat →
        ∃ y, net.forward x = some y ∧ y.b = x.b ∧ y.n = n.toNat) := by
  constructor
  · intro c h w n p net x hb hxc hxh hxw
    obtain ⟨c', h', w', heq, hc, hh, hw, hn, rfl⟩ :=
      (build_std_some_iff _ _ _ _).mp hb
    obtain ⟨rfl, rfl, rfl⟩ := list3_inj _ _ _ _ _ _ heq
    exact ⟨_, std_forward_eq c h w n p x hc hh hw hxc hxh hxw, rfl, rfl⟩
  · intro c h w n p net x hb hxc hxh hxw
    obtain ⟨c', h', w', heq, hc, hh, hw, hn, rfl⟩ :=
      (build_duel_some_iff _ _ _ _).mp hb
    obtain ⟨rfl, rfl, rfl⟩ := list3_inj _ _ _ _ _ _ heq
    exact ⟨_, duel_forward_eq c h w n p x hc hh hw hxc hxh hxw, rfl, rfl⟩

/-- Witness for C2: a batch of 5 inputs through concretely built standard
and dueling networks gives shape `(5, output_dim)`. -/
theorem C2_witness :
    (∃ y, (netOfStd 1 36 36 1 p0).forward (zeros4 5 1 36 36) = some y ∧
      y.b = (zeros4 5 1 36 36).b ∧ y.n = (1 : ℤ).toNat) ∧
    (∃ y, (netOfDuel 1 36 36 2 pd0).forward (zeros4 5 1 36 36) = some y ∧
      y.b = (zeros4 5 1 36 36).b ∧ y.n = (2 : ℤ).toNat) :=
  ⟨C2_forward_output_shape.1 1 36 36 1 p0 (netOfStd 1 36 36 1 p0)
      (zeros4 5 1 36 36) rfl rfl rfl rfl,
    C2_forward_output_shape.2 1 36 36 2 pd0 (netOfDuel 1 36 36 2 pd0)
      (zeros4 5 1 36 36) rfl rfl rfl rfl⟩

/-- C3: batch-size invariance — for a fixed constructed network (standard
or dueling) and a single sample, forward on the batch of size 1 holding
that sample and forward on the batch of size 8 whose per-sample inputs are
all that same sample succeed together and return identical per-sample
output rows. -/
theorem C3_batch_size_invariance :
    (∀ (c h w n : ℤ) (p : StdParams) (net : DeepConvQNetwork)
        (sd : Sample3),
        DeepConvQNetwork.build [c, h, w] n p = some net →
        ∃ y1 y8,
          net.forward ⟨1, c.toNat, h.toNat, w.toNat, fun _ => sd⟩ = some y1 ∧
          net.forward ⟨8, c.toNat, h.toNat, w.toNat, fun _ => sd⟩ = some y8 ∧
          ∀ bi, y8.data bi = y1.data 0) ∧
    (∀ (c h w n : ℤ) (p : DuelParams) (net : DuelingDeepConvQNetwork)
        (sd : Sample3),
        DuelingDeepConvQNetwork.build [c, h, w] n p = some net →
        ∃ y1 y8,
          net.forward ⟨1, c.toNat, h.toNat, w.toNat, fun _ => sd⟩ = some y1 ∧
          net.forward ⟨8, c.toNat, h.toNat, w.toNat, fun _ => sd⟩ = some y8 ∧
          ∀ bi, y8.data bi = y1.data 0) := by
  constructor
  · intro c h w n p net sd hb
    obtain ⟨c', h', w', heq, hc, hh, hw, hn, rfl⟩ :=
      (build_std_some_iff _ _ _ _).mp hb
    obtain ⟨rfl, rfl, rfl⟩ := list3_inj _ _ _ _ _ _ heq
    refine ⟨_, _,
      std_forward_eq c h w n p _ hc hh hw rfl rfl rfl,
      std_forward_eq c h w n p _ hc hh hw rfl rfl rfl,
      fun bi => rfl⟩
  · intro c h w n p net sd hb
    obtain ⟨c', h', w', heq, hc, hh, hw, hn, rfl⟩ :=
      (build_duel_some_iff _ _ _ _).mp hb
    obtain ⟨rfl, rfl, rfl⟩ := list3_inj _ _ _ _ _ _ heq
    refine ⟨_, _,
      duel_forward_eq c h w n p _ hc hh hw rfl rfl rfl,
      duel_forward_eq c h w n p _ hc hh hw rfl rfl rfl,
      fun bi => ?_⟩
    have hT : tmean (duelAdvTensor (netOfDuel c h w n p)
          ⟨8, c.toNat, h.toNat, w.toNat, fun _ => sd⟩) =
        tmean (duelAdvTensor (netOfDuel c h w n p)
          ⟨1, c.toNat, h.toNat, w.toNat, fun _ => sd⟩) :=
      tmean_const_rows 8 1 (netOfDuel c h w n p).advL2.outF
        (by decide) (by decide)
        (duelAdvVec (netOfDuel c h w n p) h.toNat w.toNat sd)
    funext a
    dsimp only
    rw [hT]

/-- Witness for C3 on a concrete network and the all-zero sample. -/
theorem C3_witness :
    (∃ y1 y8,
      (netOfStd 1 36 36 1 p0).forward
          ⟨1, (1 : ℤ).toNat, (36 : ℤ).toNat, (36 : ℤ).toNat,
            fun _ => fun _ _ _ => 0⟩ = some y1 ∧
      (netOfStd 1 36 36 1 p0).forward
          ⟨8, (1 : ℤ).toNat, (36 : ℤ).toNat, (36 : ℤ).toNat,
            fun _ => fun _ _ _ => 0⟩ = some y8 ∧
      ∀ bi, y8.data bi = y1.data 0) ∧
    (∃ y1 y8,
      (netOfDuel 1 36 36 1 pd0).forward
          ⟨1, (1 : ℤ).toNat, (36 : ℤ).toNat, (36 : ℤ).toNat,
            fun _ => fun _ _ _ => 0⟩ = some y1 ∧
      (netOfDuel 1 36 36 1 pd0).forward
          ⟨8, (1 : ℤ).toNat, (36 : ℤ).toNat, (36 : ℤ).toNat,
            fun _ => fun _ _ _ => 0⟩ = some y8 ∧
      ∀ bi, y8.data bi = y1.data 0) :=
  ⟨C3_batch_size_invariance.1 1 36 36 1 p0 (netOfStd 1 36 36 1 p0)
      (fun _ _ _ => 0) rfl,
    C3_batch_size_invariance.2 1 36 36 1 pd0 (netOfDuel 1 36 36 1 pd0)
      (fun _ _ _ => 0) rfl⟩

/-- C4: both networks' convolutional trunk is exactly three unpadded
convolution stages with learnable bias — in-channels to 32 with an 8×8
kernel at stride 4, 32 to 64 with 4×4 at stride 2, 64 to 64 with 3×3 at
stride 1 — each stage followed by a rectified-linear activation, and each
stage's output spatial extents obey `floor((in - kernel) / stride) + 1`
(the output channel count is the stage's, except that a zero-channel
input zeroes it, per ATen's empty-channel handling); the per-entry output
is the bias plus the windowed weighted sum. -/
theorem C4_trunk_architecture :
    (∀ (c h w n : ℤ) (p : StdParams) (net : DeepConvQNetwork),
        DeepConvQNetwork.build [c, h, w] n p = some net →
        net.conv.conv1 = ⟨c.toNat, 32, 8, 4, p.trunk.w1, p.trunk.b1⟩ ∧
        net.conv.conv2 = ⟨32, 64, 4, 2, p.trunk.w2, p.trunk.b2⟩ ∧
        net.conv.conv3 = ⟨64, 64, 3, 1, p.trunk.w3, p.trunk.b3⟩) ∧
    (∀ (c h w n : ℤ) (p : DuelParams) (net : DuelingDeepConvQNetwork),
        DuelingDeepConvQNetwork.build [c, h, w] n p = some net →
        net.conv.conv1 = ⟨c.toNat, 32, 8, 4, p.trunk.w1, p.trunk.b1⟩ ∧
        net.conv.conv2 = ⟨32, 64, 4, 2, p.trunk.w2, p.trunk.b2⟩ ∧
        net.conv.conv3 = ⟨64, 64, 3, 1, p.trunk.w3, p.trunk.b3⟩) ∧
    (∀ (T : Trunk) (x : Tensor4),
        T.apply x =
          (conv2dApply T.conv1 x).bind (fun y1 =>
            (conv2dApply T.conv2 (relu4 y1)).bind (fun y2 =>
              (conv2dApply T.conv3 (relu4 y2)).map relu4))) ∧
    (∀ (L : Conv2d) (x y : Tensor4), conv2dApply L x = some y →
        y.b = x.b ∧ y.c = (if x.c = 0 then 0 else L.outC) ∧
          y.h = (x.h - L.k) / L.s + 1 ∧ y.w = (x.w - L.k) / L.s + 1) ∧
    (∀ (L : Conv2d) (s : Sample3) (o i j : ℕ),
        conv2dSample L s o i j =
          L.bias o + ∑ ci ∈ Finset.range L.inC, ∑ di ∈ Finset.range L.k,
            ∑ dj ∈ Finset.range L.k,
              L.weight o ci di dj * s ci (i * L.s + di) (j * L.s + dj)) := by
  refine ⟨?_, ?_, ?_, ?_, ?_⟩
  · intro c h w n p net hb
    obtain ⟨c', h', w', heq, hc, hh, hw, hn, rfl⟩ :=
      (build_std_some_iff _ _ _ _).mp hb
    obtain ⟨rfl, rfl, rfl⟩ := list3_inj _ _ _ _ _ _ heq
    exact ⟨rfl, rfl, rfl⟩
  · intro c h w n p net hb
    obtain ⟨c', h', w', heq, hc, hh, hw, hn, rfl⟩ :=
      (build_duel_some_iff _ _ _ _).mp hb
    obtain ⟨rfl, rfl, rfl⟩ := list3_inj _ _ _ _ _ _ heq
    exact ⟨rfl, rfl, rfl⟩
  · intro T x
    unfold Trunk.apply
    cases h1 : conv2dApply T.conv1 x with
    | none => rfl
    | some y1 =>
      dsimp only
      cases h2 : conv2dApply T.conv2 (relu4 y1) with
      | none => simp [h2]
      | some y2 =>
        dsimp only
        cases h3 : conv2dApply T.conv3 (relu4 y2) with
        | none => simp [h2, h3]
        | some y3 => simp [h2, h3]
  · intro L x y h
    exact conv2dApply_shape L x y h
  · intro L s o i j
    rfl

/-- Witness for C4 at a concrete construction. -/
theorem C4_witness :
    (netOfStd 1 36 36 1 p0).conv.conv1 =
        ⟨(1 : ℤ).toNat, 32, 8, 4, p0.trunk.w1, p0.trunk.b1⟩ ∧
    (netOfStd 1 36 36 1 p0).conv.conv2 =
        ⟨32, 64, 4, 2, p0.trunk.w2, p0.trunk.b2⟩ ∧
    (netOfStd 1 36 36 1 p0).conv.conv3 =
        ⟨64, 64, 3, 1, p0.trunk.w3, p0.trunk.b3⟩ :=
  C4_trunk_architecture.1 1 36 36 1 p0 (netOfStd 1 36 36 1 p0) rfl

/-- C7: `fc_input_dim`, computed once at construction, equals the
flattened size of the trunk's output for a single input of the configured
shape, and equals the input width of the first fully-connected layer of
every downstream head; construction with `input_dim = (4, 84, 84)` and
`output_dim = 6` succeeds with the positive feature width 3136. -/
theorem C7_fc_input_dim :
    (∀ (c h w n : ℤ) (p : StdParams) (net : DeepConvQNetwork),
        DeepConvQNetwork.build [c, h, w] n p = some net →
        (net.conv.apply (zeros4 1 c.toNat h.toNat w.toNat)).map
            (fun y => (flatten4 y).n) = some net.fc_input_dim ∧
        net.lin1.inF = net.fc_input_dim) ∧
    (∀ (c h w n : ℤ) (p : DuelParams) (net : DuelingDeepConvQNetwork),
        DuelingDeepConvQNetwork.build [c, h, w] n p = some net →
        (net.conv.apply (zeros4 1 c.toNat h.toNat w.toNat)).map
            (fun y => (flatten4 y).n) = some net.fc_input_dim ∧
        net.valueL1.inF = net.fc_input_dim ∧
        net.advL1.inF = net.fc_input_dim) ∧
    (∃ net, DeepConvQNetwork.build [4, 84, 84] 6 p0 = some net ∧
        0 < net.fc_input_dim ∧ net.fc_input_dim = 3136) ∧
    (∃ net, DuelingDeepConvQNetwork.build [4, 84, 84] 6 pd0 = some net ∧
        0 < net.fc_input_dim ∧ net.fc_input_dim = 3136) := by
  refine ⟨?_, ?_, ?_, ?_⟩
  · intro c h w n p net hb
    obtain ⟨c', h', w', heq, hc, hh, hw, hn, rfl⟩ :=
      (build_std_some_iff _ _ _ _).mp hb
    obtain ⟨rfl, rfl, rfl⟩ := list3_inj _ _ _ _ _ _ heq
    refine ⟨?_, rfl⟩
    rw [netOfStd_conv, trunk_apply_eq c.toNat p.trunk _ rfl (by omega)
      (by show 36 ≤ h.toNat; omega) (by show 36 ≤ w.toNat; omega)]
    rfl
  · intro c h w n p net hb
    obtain ⟨c', h', w', heq, hc, hh, hw, hn, rfl⟩ :=
      (build_duel_some_iff _ _ _ _).mp hb
    obtain ⟨rfl, rfl, rfl⟩ := list3_inj _ _ _ _ _ _ heq
    refine ⟨?_, rfl, rfl⟩
    rw [netOfDuel_conv, trunk_apply_eq c.toNat p.trunk _ rfl (by omega)
      (by show 36 ≤ h.toNat; omega) (by show 36 ≤ w.toNat; omega)]
    rfl
  · exact ⟨netOfStd 4 84 84 6 p0, (build_std_some_iff _ _ _ _).mpr
      ⟨4, 84, 84, rfl, by decide, by decide, by decide, by decide, rfl⟩,
      by decide, by decide⟩
  · exact ⟨netOfDuel 4 84 84 6 pd0, (build_duel_some_iff _ _ _ _).mpr
      ⟨4, 84, 84, rfl, by decide, by decide, by decide, by decide, rfl⟩,
      by decide, by decide⟩

/-- Witness for C7 at a concrete construction. -/
theorem C7_witness :
    ((netOfStd 1 36 36 1 p0).conv.apply
        (zeros4 1 (1 : ℤ).toNat (36 : ℤ).toNat (36 : ℤ).toNat)).map
      (fun y => (flatten4 y).n) = some (netOfStd 1 36 36 1 p0).fc_input_dim ∧
    (netOfStd 1 36 36 1 p0).lin1.inF = (netOfStd 1 36 36 1 p0).fc_input_dim :=
  C7_fc_input_dim.1 1 36 36 1 p0 (netOfStd 1 36 36 1 p0) rfl

/-- C9: the construction-time shape inference is a single trunk pass on a
throwaway zero tensor and is pure: its result does not depend on the
trunk's parameter values, it is exactly the map of the flattened-size
reader over that one zero-tensor trunk application, and construction
stores the caller's parameter functions in the returned network unchanged
(no side effect on trained parameters; the returned width is a plain
number, so no computation state leaks out of the dummy pass). -/
theorem C9_feature_size_pure :
    (∀ (c : ℕ) (p q : TrunkParams) (d : List ℤ),
        feature_size (mkTrunk c p) d = feature_size (mkTrunk c q) d) ∧
    (∀ (T : Trunk) (c h w : ℤ), 0 ≤ c → 0 ≤ h → 0 ≤ w →
        feature_size T [c, h, w] =
          (T.apply (zeros4 1 c.toNat h.toNat w.toNat)).map
            (fun y => (flatten4 y).n)) ∧
    (∀ (c h w n : ℤ) (p : StdParams) (net : DeepConvQNetwork),
        DeepConvQNetwork.build [c, h, w] n p = some net →
        net.conv.conv1.weight = p.trunk.w1 ∧ net.conv.conv1.bias = p.trunk.b1 ∧
        net.conv.conv2.weight = p.trunk.w2 ∧ net.conv.conv2.bias = p.trunk.b2 ∧
        net.conv.conv3.weight = p.trunk.w3 ∧ net.conv.conv3.bias = p.trunk.b3 ∧
        net.lin1.weight = p.head.w1 ∧ net.lin1.bias = p.head.b1 ∧
        net.lin2.weight = p.head.w2 ∧ net.lin2.bias = p.head.b2) ∧
    (∀ (c h w n : ℤ) (p : DuelParams) (net : DuelingDeepConvQNetwork),
        DuelingDeepConvQNetwork.build [c, h, w] n p = some net →
        net.conv.conv1.weight = p.trunk.w1 ∧ net.conv.conv1.bias = p.trunk.b1 ∧
        net.conv.conv2.weight = p.trunk.w2 ∧ net.conv.conv2.bias = p.trunk.b2 ∧
        net.conv.conv3.weight = p.trunk.w3 ∧ net.conv.conv3.bias = p.trunk.b3 ∧
        net.valueL1.weight = p.value.w1 ∧ net.valueL1.bias = p.value.b1 ∧
        net.valueL2.weight = p.value.w2 ∧ net.valueL2.bias = p.value.b2 ∧
        net.advL1.weight = p.advantage.w1 ∧ net.advL1.bias = p.advantage.b1 ∧
        net.advL2.weight = p.advantage.w2 ∧
          net.advL2.bias = p.advantage.b2) := by
  refine ⟨?_, ?_, ?_, ?_⟩
  · intro c p q d
    match d with
    | [] => rfl
    | [_] => rfl
    | [_, _] => rfl
    | _ :: _ :: _ :: _ :: _ => rfl
    | [c1, h, w] =>
      by_cases hok : 1 ≤ c1 ∧ c1.toNat = c ∧ 36 ≤ h ∧ 36 ≤ w
      · obtain ⟨hc1, rfl, hh, hw⟩ := hok
        rw [feature_size_eq p c1 h w hc1 hh hw,
          feature_size_eq q c1 h w hc1 hh hw]
      · have hp : feature_size (mkTrunk c p) [c1, h, w] = none := by
          rw [← Option.not_isSome_iff_eq_none, feature_size_isSome_iff_gen]
          exact hok
        have hq : feature_size (mkTrunk c q) [c1, h, w] = none := by
          rw [← Option.not_isSome_iff_eq_none, feature_size_isSome_iff_gen]
          exact hok
        rw [hp, hq]
  · intro T c h w hc hh hw
    simp only [feature_size]
    rw [if_pos ⟨hc, hh, hw⟩]
    cases hT : T.apply (zeros4 1 c.toNat h.toNat w.toNat) with
    | none => rfl
    | some y => rfl
  · intro c h w n p net hb
    obtain ⟨c', h', w', heq, hc, hh, hw, hn, rfl⟩ :=
      (build_std_some_iff _ _ _ _).mp hb
    exact ⟨rfl, rfl, rfl, rfl, rfl, rfl, rfl, rfl, rfl, rfl⟩
  · intro c h w n p net hb
    obtain ⟨c', h', w', heq, hc, hh, hw, hn, rfl⟩ :=
      (build_duel_some_iff _ _ _ _).mp hb
    exact ⟨rfl, rfl, rfl, rfl, rfl, rfl, rfl, rfl, rfl, rfl, rfl, rfl, rfl, rfl⟩

/-- Witness for C9 on concrete inputs. -/
theorem C9_witness :
    feature_size (mkTrunk 4 p0.trunk) [4, 84, 84] =
      feature_size (mkTrunk 4 pd0.trunk) [4, 84, 84] ∧
    feature_size (mkTrunk 4 p0.trunk) [4, 84, 84] =
      ((mkTrunk 4 p0.trunk).apply
          (zeros4 1 (4 : ℤ).toNat (84 : ℤ).toNat (84 : ℤ).toNat)).map
        (fun y => (flatten4 y).n) ∧
    (netOfStd 4 84 84 6 p0).conv.conv1.weight = p0.trunk.w1 :=
  ⟨C9_feature_size_pure.1 4 p0.trunk pd0.trunk [4, 84, 84],
    C9_feature_size_pure.2.1 (mkTrunk 4 p0.trunk) 4 84 84
      (by decide) (by decide) (by decide),
    (C9_feature_size_pure.2.2.1 4 84 84 6 p0 (netOfStd 4 84 84 6 p0)
      rfl).1⟩

/-- C10: for `c ≥ 1`, the trunk produces a non-empty output on a
`(1, c, h, w)` zero input — and the construction-time shape inference
succeeds — exactly when both spatial extents are at least 36: the minimum
receptive field is exactly 36×36. -/
theorem C10_receptive_field_exactly_36 :
    ∀ (c h w : ℕ) (p : TrunkParams), 1 ≤ c →
      ((∃ y, (mkTrunk c p).apply (zeros4 1 c h w) = some y ∧
          0 < y.b * y.c * y.h * y.w) ↔ (36 ≤ h ∧ 36 ≤ w)) ∧
      ((feature_size (mkTrunk c p) [(c : ℤ), (h : ℤ), (w : ℤ)]).isSome ↔
        (36 ≤ h ∧ 36 ≤ w)) := by
  intro c h w p hc1
  constructor
  · constructor
    · rintro ⟨y, hy, -⟩
      have hs := (trunk_apply_isSome_iff c p (zeros4 1 c h w)).mp
        (by rw [hy]; rfl)
      exact ⟨hs.2.2.1, hs.2.2.2⟩
    · rintro ⟨hh, hw⟩
      refine ⟨_, trunk_apply_eq c p (zeros4 1 c h w) rfl (by omega) hh hw, ?_⟩
      have p1 : 0 < trunkOutH (zeros4 1 c h w).h := Nat.succ_pos _
      have p2 : 0 < trunkOutH (zeros4 1 c h w).w := Nat.succ_pos _
      exact Nat.mul_pos (Nat.mul_pos (Nat.mul_pos Nat.one_pos
        (by norm_num)) p1) p2
  · have base := feature_size_isSome_iff p (c : ℤ) (h : ℤ) (w : ℤ)
    rw [show ((c : ℤ)).toNat = c from rfl] at base
    rw [base]
    omega

/-- Witness for C10 at `c = 1`, `(h, w) = (36, 36)`. -/
theorem C10_witness :
    ((∃ y, (mkTrunk 1 zeroTrunkParams).apply (zeros4 1 1 36 36) = some y ∧
        0 < y.b * y.c * y.h * y.w) ↔ ((36 : ℕ) ≤ 36 ∧ (36 : ℕ) ≤ 36)) ∧
    ((feature_size (mkTrunk 1 zeroTrunkParams)
        [((1 : ℕ) : ℤ), ((36 : ℕ) : ℤ), ((36 : ℕ) : ℤ)]).isSome ↔
      ((36 : ℕ) ≤ 36 ∧ (36 : ℕ) ≤ 36)) :=
  C10_receptive_field_exactly_36 1 36 36 zeroTrunkParams (by decide)

/-- C1: the dueling forward returns `Q = V + (A − m)` where `m` is the
single scalar mean over all `b*n` entries of the advantage tensor `A`
(not a per-row mean over actions); on the spec's worked example
`A = [[1,2,3],[4,5,6]]` the subtracted mean is `7/2 = 3.5` and row 0
contributes `[-5/2, -3/2, -1/2]` added to the value `V`. -/
theorem C1_dueling_combination :
    (∀ (net : DuelingDeepConvQNetwork) (s : Tensor4) (V A : Tensor2),
        net.valueOut s = some V → net.advantageOut s = some A →
        net.forward s =
          some ⟨A.b, A.n,
            fun bi a => V.data bi 0 + (A.data bi a - tmean A)⟩) ∧
    tmean exampleA = 7 / 2 ∧
    (∀ v : ℚ,
      v + (exampleA.data 0 0 - tmean exampleA) = v + (-5 / 2) ∧
      v + (exampleA.data 0 1 - tmean exampleA) = v + (-3 / 2) ∧
      v + (exampleA.data 0 2 - tmean exampleA) = v + (-1 / 2)) := by
  have ht : tmean exampleA = 7 / 2 := by
    unfold tmean
    show (∑ bi ∈ Finset.range 2, ∑ j ∈ Finset.range 3, exampleA.data bi j) /
      ((2 : ℚ) * (3 : ℚ)) = 7 / 2
    rw [Finset.sum_range_succ, Finset.sum_range_succ, Finset.sum_range_zero]
    rw [Finset.sum_range_succ, Finset.sum_range_succ, Finset.sum_range_succ,
      Finset.sum_range_zero]
    rw [Finset.sum_range_succ, Finset.sum_range_succ, Finset.sum_range_succ,
      Finset.sum_range_zero]
    norm_num [exampleA]
  refine ⟨?_, ht, ?_⟩
  · intro net s V A hV hA
    unfold DuelingDeepConvQNetwork.valueOut at hV
    unfold DuelingDeepConvQNetwork.advantageOut at hA
    unfold DuelingDeepConvQNetwork.forward
    split at hV
    · cases hV
    · next f hf =>
      rw [hf] at hA
      dsimp only at hA
      split at hV
      · cases hV
      · next u1 h1 =>
        rw [hV]
        dsimp only
        split at hA
        · cases hA
        · next a1 h2 =>
          rw [hA]
  · intro v
    refine ⟨?_, ?_, ?_⟩ <;> · rw [ht]; norm_num [exampleA]

/-- Witness for C1: the combination law applied to a concrete dueling
network and input. -/
theorem C1_witness :
    (netOfDuel 1 36 36 1 pd0).forward (zeros4 1 1 36 36) =
      some ⟨((netOfDuel 1 36 36 1 pd0).advantageOut
          (zeros4 1 1 36 36)).iget.b,
        ((netOfDuel 1 36 36 1 pd0).advantageOut (zeros4 1 1 36 36)).iget.n,
        fun bi a =>
          ((netOfDuel 1 36 36 1 pd0).valueOut
              (zeros4 1 1 36 36)).iget.data bi 0 +
            (((netOfDuel 1 36 36 1 pd0).advantageOut
                (zeros4 1 1 36 36)).iget.data bi a -
              tmean ((netOfDuel 1 36 36 1 pd0).advantageOut
                (zeros4 1 1 36 36)).iget)⟩ :=
  C1_dueling_combination.1 (netOfDuel 1 36 36 1 pd0) (zeros4 1 1 36 36)
    ((netOfDuel 1 36 36 1 pd0).valueOut (zeros4 1 1 36 36)).iget
    ((netOfDuel 1 36 36 1 pd0).advantageOut (zeros4 1 1 36 36)).iget
    rfl rfl

end SuperMario
